import Mathlib

/-!
Shallow embedding of the QStemplateExport repository (four Python scripts that
drive the QuickSight API): QSsaveTemplate.py, QStemplateExport.py,
QScreateAnewDashboard.py and QScreateDiffAccountDash.py.

Remote service calls are modelled as observable events; the service's
responses are inputs (a `World` record per script).  Each module-level script
run returns a `ModuleResult`: the list of attempted calls/writes, the errors
caught and printed by top-level handlers (the process still exits zero), and
the error, if any, that escapes uncaught (non-zero process exit).
-/

/-- The process environment (`os.environ`), a finite map from names to values. -/
def Env : Type := List (String × String)

/-- `os.environ.get(k)` / `k in os.environ`: lookup returning `none` when absent. -/
def envGet? (e : Env) (k : String) : Option String :=
  match e with
  | [] => none
  | (k0, v) :: rest => if k0 = k then some v else envGet? rest k

/-- `os.environ.get(k, d)`: lookup with a default. -/
def envGetD (e : Env) (k d : String) : String :=
  (envGet? e k).getD d

/-- A botocore `ClientError`, carrying the service error code and message. -/
structure ClientErr where
  code : String
  msg : String
deriving DecidableEq, Repr

/-- The Python exceptions these scripts can raise or catch. -/
inductive PyErr where
  | keyError (key : String)
  | valueError (msg : String)
  | clientError (code : String) (msg : String)
  | nameError (missingName : String)
deriving DecidableEq, Repr

/-- One entry of a template's `Version.DataSetConfigurations` list. -/
structure DataSetConfiguration where
  Placeholder : String
deriving DecidableEq, Repr

/-- The `Version` sub-object of a described template; the
`DataSetConfigurations` key may be absent (`in` checks in the source). -/
structure TemplateVersion where
  DataSetConfigurations : Option (List DataSetConfiguration)
deriving DecidableEq, Repr

/-- The `Template` sub-object of a `describe_template` response, with the
fields the dashboard scripts read; the `Version` key may be absent. -/
structure TemplateDescription where
  Arn : String
  Version : Option TemplateVersion
deriving DecidableEq, Repr

/-- A `describe_template` response as used by the dashboard scripts. -/
structure DescribeTemplateResponse where
  Template : TemplateDescription
deriving DecidableEq, Repr

/-- A `DataSetReferences` entry: placeholder name paired with a dataset ARN. -/
structure DataSetReference where
  DataSetPlaceholder : String
  DataSetArn : String
deriving DecidableEq, Repr

/-- A permission grant: a principal ARN and the allowed actions. -/
structure Permission where
  Principal : String
  Actions : List String
deriving DecidableEq, Repr

/-- The full argument record of a `create_dashboard` service call. -/
structure CreateDashboardCall where
  AwsAccountId : String
  DashboardId : String
  Name : String
  Permissions : List Permission
  SourceTemplateArn : String
  DataSetReferences : List DataSetReference
  AdHocFiltering : String
  ExportToCSV : String
  SheetControls : String
  VersionDescription : String
deriving DecidableEq, Repr

/-- The full argument record of a `create_template` service call. -/
structure CreateTemplateCall where
  AwsAccountId : String
  TemplateId : String
  Name : String
  SourceAnalysisArn : String
  DataSetReferences : List DataSetReference
  VersionDescription : String
deriving DecidableEq, Repr

mutual
/-- A Python value as handled by `json.dumps(..., default=str)`.  A
`datetime` carries the string its `str()` produces (`default=str` renders
exactly that string).  Lists and dict field lists are their own inductive
types so that every function on them is structurally recursive. -/
inductive PyVal where
  | str (s : String)
  | int (n : Int)
  | bool (b : Bool)
  | null
  | datetime (strForm : String)
  | arr (items : PyItems)
  | dict (fields : PyFields)

/-- The elements of a Python list value. -/
inductive PyItems where
  | nil
  | cons (head : PyVal) (tail : PyItems)

/-- The key-value fields of a Python dict value. -/
inductive PyFields where
  | nil
  | cons (key : String) (val : PyVal) (tail : PyFields)
end

/-- Observable side effects of a script run: each remote service call that is
attempted (with the region the issuing client is bound to), the file write of
TemplateSaver (`open(path, 'w')` followed by a full write, overwriting any
prior content), and the dashboard-URL line the dashboard scripts print. -/
inductive Event where
  | listGroups (region awsAccountId namespaceName : String)
  | describeTemplate (region awsAccountId templateId : String)
  | describeTemplateVersion (region awsAccountId templateId : String) (versionNumber : Int)
  | describeAnalysis (region awsAccountId analysisId : String)
  | createTemplate (region : String) (call : CreateTemplateCall)
  | createDashboard (region : String) (call : CreateDashboardCall)
  | updateTemplatePermissions (region awsAccountId templateId : String) (grant : Permission)
  | stsAssumeRole (roleArn roleSessionName : String)
  | fileWrite (path content : String)
  | printDashboardUrl (url : String)
deriving DecidableEq, Repr

/-- Outcome of running one script module: attempted events, errors caught and
printed by top-level handlers (exit status stays zero), and the error, if
any, that propagates uncaught (non-zero exit status). -/
structure ModuleResult where
  events : List Event
  caught : List PyErr
  uncaught : Option PyErr
deriving DecidableEq, Repr

/-- The dataset configurations a described template carries: empty when the
`Version` key or the `DataSetConfigurations` key is absent. -/
def templateConfigs (t : DescribeTemplateResponse) : List DataSetConfiguration :=
  match t.Template.Version with
  | none => []
  | some ver => ver.DataSetConfigurations.getD []

/-! ### Embedding of Python `json.dumps(x, indent=4, sort_keys=True, default=str)` -/

/-- Four lowercase hex digits, as in Python's `\uXXXX` escapes. -/
def hex4 (n : Nat) : String :=
  let s := String.mk (Nat.toDigits 16 n)
  String.mk (List.replicate (4 - s.length) '0') ++ s

/-- One `\uXXXX` escape. -/
def uEscape (n : Nat) : String := "\\u" ++ hex4 n

/-- JSON escaping of one character, following `json.dumps` with its default
`ensure_ascii=True` (non-ASCII becomes `\uXXXX`, astral characters a
surrogate pair). -/
def escapeChar (c : Char) : String :=
  if c = '"' then "\\\""
  else if c = '\\' then "\\\\"
  else if c = '\n' then "\\n"
  else if c = '\r' then "\\r"
  else if c = '\t' then "\\t"
  else if c.toNat = 8 then "\\b"
  else if c.toNat = 12 then "\\f"
  else if c.toNat < 0x20 then uEscape c.toNat
  else if c.toNat < 0x7f then String.singleton c
  else if c.toNat ≤ 0xffff then uEscape c.toNat
  else
    uEscape (0xd800 + (c.toNat - 0x10000) / 0x400) ++
      uEscape (0xdc00 + (c.toNat - 0x10000) % 0x400)

/-- A JSON string literal for `s`. -/
def quoteStr (s : String) : String :=
  "\"" ++ String.join (s.toList.map escapeChar) ++ "\""

/-- Lexicographic comparison of character lists by code point, the order
Python uses to compare strings. -/
def charListLe : List Char → List Char → Bool
  | [], _ => true
  | _ :: _, [] => false
  | c1 :: t1, c2 :: t2 =>
    if c1.toNat < c2.toNat then true
    else if c2.toNat < c1.toNat then false
    else charListLe t1 t2

/-- Python's string `<=` (code-point lexicographic order). -/
def strLe (a b : String) : Bool := charListLe a.data b.data

/-- Stable insertion of a field into a key-sorted field list. -/
def insertField (k : String) (v : PyVal) : PyFields → PyFields
  | .nil => .cons k v .nil
  | .cons k0 v0 fs =>
    if strLe k k0 then .cons k v (.cons k0 v0 fs) else .cons k0 v0 (insertField k v fs)

/-- Stable sort of an object's fields by key (Python `sort_keys=True`). -/
def sortFields : PyFields → PyFields
  | .nil => .nil
  | .cons k v fs => insertField k v (sortFields fs)

mutual
/-- Recursively sort every object's fields by key, as `sort_keys=True` does
at serialization time. -/
def sortVal (v : PyVal) : PyVal :=
  match v with
  | .str s => .str s
  | .int n => .int n
  | .bool b => .bool b
  | .null => .null
  | .datetime s => .datetime s
  | .arr xs => .arr (sortValItems xs)
  | .dict fs => .dict (sortFields (sortValFields fs))
termination_by structural v

def sortValItems (items : PyItems) : PyItems :=
  match items with
  | .nil => .nil
  | .cons x xs => .cons (sortVal x) (sortValItems xs)
termination_by structural items

def sortValFields (fields : PyFields) : PyFields :=
  match fields with
  | .nil => .nil
  | .cons k v fs => .cons k (sortVal v) (sortValFields fs)
termination_by structural fields
end

/-- `indent=4`: the indentation string at nesting level `lvl`. -/
def indentStr (lvl : Nat) : String := String.mk (List.replicate (lvl * 4) ' ')

mutual
/-- Serialize an (already key-sorted) value at nesting level `lvl`, following
`json.dumps(x, indent=4, default=str)`: a `datetime` is rendered as the JSON
string of its `str()` form. -/
def pyDumpsAt (lvl : Nat) (v : PyVal) : String :=
  match v with
  | .str s => quoteStr s
  | .int n => toString n
  | .bool b => if b then "true" else "false"
  | .null => "null"
  | .datetime s => quoteStr s
  | .arr .nil => "[]"
  | .arr (.cons x xs) =>
    "[\n" ++ String.intercalate ",\n" (dumpItems (lvl + 1) (.cons x xs)) ++
      "\n" ++ indentStr lvl ++ "]"
  | .dict .nil => "\x7b\x7d"
  | .dict (.cons k v0 fs) =>
    "\x7b\n" ++ String.intercalate ",\n" (dumpFields (lvl + 1) (.cons k v0 fs)) ++
      "\n" ++ indentStr lvl ++ "\x7d"
termination_by structural v

def dumpItems (lvl : Nat) (items : PyItems) : List String :=
  match items with
  | .nil => []
  | .cons x xs => (indentStr lvl ++ pyDumpsAt lvl x) :: dumpItems lvl xs
termination_by structural items

def dumpFields (lvl : Nat) (fields : PyFields) : List String :=
  match fields with
  | .nil => []
  | .cons k v fs =>
    (indentStr lvl ++ quoteStr k ++ ": " ++ pyDumpsAt lvl v) :: dumpFields lvl fs
termination_by structural fields
end

/-- `json.dumps(v, indent=4, sort_keys=True, default=str)`. -/
def pyDumps (v : PyVal) : String := pyDumpsAt 0 (sortVal v)

/-! ### QSsaveTemplate.py (TemplateSaver) -/

namespace QSsaveTemplate

/-- The `describe_template` response: the script serializes its whole
`Template` sub-object generically, so that sub-object is an arbitrary value. -/
structure SaverResponse where
  Template : PyVal

/-- The service's response to the one call this script makes. -/
structure World where
  describeTemplate : Except ClientErr SaverResponse

/-- `download_template(aws_account_id, template_id, version_number, region,
output_file)`: issue `describe_template` with `VersionNumber=int(version_number)`
against a client in `region`; on success open `output_file` in mode `'w'`
(overwriting unconditionally) and write
`json.dumps(response['Template'], indent=4, sort_keys=True, default=str)`.
No handler: any error propagates to the caller. -/
def download_template (w : World) (aws_account_id template_id : String)
    (version_number : Int) (region output_file : String) :
    List Event × Except PyErr Unit :=
  let ev := Event.describeTemplateVersion region aws_account_id template_id version_number
  match w.describeTemplate with
  | .error e => ([ev], .error (.clientError e.code e.msg))
  | .ok resp => ([ev, .fileWrite output_file (pyDumps resp.Template)], .ok ())

/-- The module entry: read `AWS_ACCOUNT_ID`, `AWS_REGION`, `TEMPLATE_ID` by
subscript (each raises `KeyError` when absent), then call
`download_template(AwsAccountId, TemplateId, 1, Region, 'template.json')`.
There is no try block anywhere, so every error escapes uncaught. -/
def run (env : Env) (w : World) : ModuleResult :=
  match envGet? env "AWS_ACCOUNT_ID" with
  | none => ⟨[], [], some (.keyError "AWS_ACCOUNT_ID")⟩
  | some aws_account_id =>
    match envGet? env "AWS_REGION" with
    | none => ⟨[], [], some (.keyError "AWS_REGION")⟩
    | some region =>
      match envGet? env "TEMPLATE_ID" with
      | none => ⟨[], [], some (.keyError "TEMPLATE_ID")⟩
      | some template_id =>
        match download_template w aws_account_id template_id 1 region "template.json" with
        | (evs, .ok _) => ⟨evs, [], none⟩
        | (evs, .error e) => ⟨evs, [], some e⟩

end QSsaveTemplate

/-! ### QStemplateExport.py (TemplateExporter) -/

namespace QStemplateExport

/-- The `Analysis` sub-object of a `describe_analysis` response. -/
structure AnalysisDescription where
  DataSetArns : List String
deriving DecidableEq, Repr

/-- A `describe_analysis` response. -/
structure DescribeAnalysisResponse where
  Analysis : AnalysisDescription
deriving DecidableEq, Repr

/-- The service's responses to the three calls this script makes. -/
structure World where
  describeAnalysis : Except ClientErr DescribeAnalysisResponse
  createTemplate : Except ClientErr Unit
  describeTemplate : Except ClientErr DescribeTemplateResponse

/-- Python `dataset.split('/')[-1]`: the trailing path segment of an ARN. -/
def lastSegment (s : String) : String := (s.splitOn "/").getLastD ""

/-- `create_quicksight_template(analysis_id)`.  `current_region` is the boto3
session's resolved region (`session.region_name`, an SDK-side resolution, not
an `os.environ.get` with a default).  Reads `os.environ['AWS_ACCOUNT_ID']`
(KeyError propagates, caught only by the module's catch-all), describes the
analysis, derives one dataset reference per `DataSetArns` entry (placeholder
taken from the ARN's trailing segment), creates a template whose `TemplateId`
and `Name` are both the analysis id, then re-describes and returns it.
`ClientError`s are printed and re-raised. -/
def create_quicksight_template (env : Env) (current_region : String) (w : World)
    (analysis_id : String) : List Event × Except PyErr DescribeTemplateResponse :=
  match envGet? env "AWS_ACCOUNT_ID" with
  | none => ([], .error (.keyError "AWS_ACCOUNT_ID"))
  | some acct =>
    let ev1 := Event.describeAnalysis current_region acct analysis_id
    match w.describeAnalysis with
    | .error e => ([ev1], .error (.clientError e.code e.msg))
    | .ok analysis =>
      let dataset_references := analysis.Analysis.DataSetArns.map
        (fun arn => DataSetReference.mk (lastSegment arn) arn)
      let call : CreateTemplateCall :=
        ⟨acct, analysis_id, analysis_id,
          s!"arn:aws:quicksight:{current_region}:{acct}:analysis/{analysis_id}",
          dataset_references, "Created from analysis"⟩
      let ev2 := Event.createTemplate current_region call
      match w.createTemplate with
      | .error e => ([ev1, ev2], .error (.clientError e.code e.msg))
      | .ok _ =>
        let ev3 := Event.describeTemplate current_region acct analysis_id
        match w.describeTemplate with
        | .error e => ([ev1, ev2, ev3], .error (.clientError e.code e.msg))
        | .ok resp => ([ev1, ev2, ev3], .ok resp)

/-- The module entry: read `os.environ['ANALYSIS_ID']`, call
`create_quicksight_template`, print the result.  The whole body is inside
`try ... except Exception`, which prints and swallows every error, so the
process always exits zero. -/
def run (env : Env) (current_region : String) (w : World) : ModuleResult :=
  match envGet? env "ANALYSIS_ID" with
  | none => ⟨[], [.keyError "ANALYSIS_ID"], none⟩
  | some analysis_id =>
    match create_quicksight_template env current_region w analysis_id with
    | (evs, .error e) => ⟨evs, [e], none⟩
    | (evs, .ok _) => ⟨evs, [], none⟩

end QStemplateExport

/-! ### QScreateAnewDashboard.py (same-account DashboardCreator) -/

namespace QScreateAnewDashboard

/-- The service's responses to the calls this script makes. -/
structure World where
  listGroups : Except ClientErr Unit
  describeTemplate : Except ClientErr DescribeTemplateResponse
  createDashboard : Except ClientErr Unit

/-- `list_quicksight_groups(client, account_id)`: one `list_groups` call with
`Namespace='default'`; a `ClientError` is printed and swallowed (`return None`),
so the module continues either way. -/
def list_quicksight_groups (clientRegion : String) (_result : Except ClientErr Unit)
    (account_id : String) : List Event :=
  [Event.listGroups clientRegion account_id "default"]

/-- `get_template_details(client, account_id, template_id)`: one
`describe_template` call; a `ClientError` is printed and re-raised. -/
def get_template_details (clientRegion : String)
    (result : Except ClientErr DescribeTemplateResponse)
    (account_id template_id : String) :
    List Event × Except PyErr DescribeTemplateResponse :=
  let ev := Event.describeTemplate clientRegion account_id template_id
  match result with
  | .error e => ([ev], .error (.clientError e.code e.msg))
  | .ok resp => ([ev], .ok resp)

/-- The loop body of lines 39-43: one reference per configuration, each ARN
built from `os.environ.get('AWS_REGION', 'us-east-1')`, the account id and
`os.environ['DATASET_ID']` (KeyError when `DATASET_ID` is absent). -/
def refsLoop (env : Env) (account_id : String) :
    List DataSetConfiguration → Except PyErr (List DataSetReference)
  | [] => .ok []
  | c :: cs =>
    match envGet? env "DATASET_ID" with
    | none => .error (.keyError "DATASET_ID")
    | some dsid =>
      let region := envGetD env "AWS_REGION" "us-east-1"
      match refsLoop env account_id cs with
      | .error e => .error e
      | .ok rest =>
        .ok (DataSetReference.mk c.Placeholder
          s!"arn:aws:quicksight:{region}:{account_id}:dataset/{dsid}" :: rest)

/-- Lines 36-43: the dataset references derived from the template; the loop
runs only when both the `Version` and `DataSetConfigurations` keys exist. -/
def dataset_references (env : Env) (account_id : String)
    (template_obj : DescribeTemplateResponse) : Except PyErr (List DataSetReference) :=
  match template_obj.Template.Version with
  | none => .ok []
  | some ver =>
    match ver.DataSetConfigurations with
    | none => .ok []
    | some configs => refsLoop env account_id configs

/-- `create_dashboard(client, account_id, dashboard_name, template_obj)`.
`now` is `datetime.now().strftime('%Y%m%d%H%M%S')`.  Builds the permission
grant for the default-namespace principal, derives the dataset references,
raises `ValueError("No dataset references found in template")` when that list
is empty (before any `create_dashboard` service call), otherwise issues the
call and on success prints the dashboard URL.  `ClientError`s are printed and
re-raised. -/
def create_dashboard (env : Env) (now clientRegion : String)
    (result : Except ClientErr Unit) (account_id dashboard_name : String)
    (template_obj : DescribeTemplateResponse) : List Event × Except PyErr Unit :=
  let dashboard_id := "dashboard-" ++ now
  let region := envGetD env "AWS_REGION" "us-east-1"
  let permissions : List Permission :=
    [⟨s!"arn:aws:quicksight:{region}:{account_id}:namespace/default",
      ["quicksight:DescribeDashboard", "quicksight:QueryDashboard",
       "quicksight:ListDashboardVersions"]⟩]
  match dataset_references env account_id template_obj with
  | .error e => ([], .error e)
  | .ok refs =>
    if refs.isEmpty then
      ([], .error (.valueError "No dataset references found in template"))
    else
      let call : CreateDashboardCall :=
        ⟨account_id, dashboard_id, dashboard_name, permissions,
          template_obj.Template.Arn, refs, "ENABLED", "ENABLED", "EXPANDED",
          "Initial version"⟩
      let ev := Event.createDashboard clientRegion call
      match result with
      | .error e => ([ev], .error (.clientError e.code e.msg))
      | .ok _ =>
        ([ev, Event.printDashboardUrl
            s!"https://{region}.quicksight.aws.amazon.com/sn/dashboards/{dashboard_id}"],
          .ok ())

/-- The variables validated at lines 107-110. -/
def requiredVars : List String := ["AWS_ACCOUNT_ID", "TEMPLATE_ID", "DATASET_ID"]

/-- The module entry (lines 105-136): validate the required variables
(ValueError listing the missing ones), build the client with
`os.environ.get('AWS_REGION', 'us-east-1')`, list groups, fetch the template,
create the dashboard.  The top-level handlers catch `ClientError`,
`KeyError`, `ValueError` and `Exception`, print, and swallow, so nothing
escapes uncaught. -/
def run (env : Env) (now : String) (w : World) : ModuleResult :=
  let missing := requiredVars.filter (fun v => (envGet? env v).isNone)
  if missing.isEmpty then
    match envGet? env "AWS_ACCOUNT_ID", envGet? env "TEMPLATE_ID" with
    | some account_id, some template_id =>
      let clientRegion := envGetD env "AWS_REGION" "us-east-1"
      let evGroups := list_quicksight_groups clientRegion w.listGroups account_id
      match get_template_details clientRegion w.describeTemplate account_id template_id with
      | (evs, .error e) => ⟨evGroups ++ evs, [e], none⟩
      | (evs, .ok template_obj) =>
        match create_dashboard env now clientRegion w.createDashboard account_id
            "New Dashboard" template_obj with
        | (evs2, .error e) => ⟨evGroups ++ evs ++ evs2, [e], none⟩
        | (evs2, .ok _) => ⟨evGroups ++ evs ++ evs2, [], none⟩
    | _, _ =>
      -- unreachable when the validation above passed
      ⟨[], [.keyError "AWS_ACCOUNT_ID"], none⟩
  else
    ⟨[], [.valueError ("Missing required environment variables: " ++
      String.intercalate ", " missing)], none⟩

end QScreateAnewDashboard

/-! ### QScreateDiffAccountDash.py (CrossAccountDashboardReplicator)

The module body contains three sequential top-level try blocks (lines 52-107,
184-246 and 249-296), all of which execute when the module runs; the function
definitions at lines 109-182 sit between the first and the second block, so
the first block's calls to `get_template_details` and `create_dashboard`
raise `NameError` (the names are not yet defined at that point of module
execution). -/

namespace QScreateDiffAccountDash

/-- Temporary credentials returned by `sts.assume_role`. -/
structure Credentials where
  AccessKeyId : String
  SecretAccessKey : String
  SessionToken : String
deriving DecidableEq, Repr

/-- A boto3 session: the assumed-role credentials plus the region the session
(and every client made from it) is bound to. -/
structure Session where
  credentials : Credentials
  region : String
deriving DecidableEq, Repr

/-- The service's responses to one block's calls. -/
structure World where
  updatePermissions : Except ClientErr Unit
  assumeRole : Except ClientErr Credentials
  describeTemplate : Except ClientErr DescribeTemplateResponse
  createDashboard : Except ClientErr Unit

/-- `assume_target_role(target_role_arn)`: one `sts.assume_role` call with
`RoleSessionName="QuickSightSession"`; on success a session bound to
`os.environ.get('TARGET_REGION', os.environ.get('AWS_REGION', 'us-east-1'))`.
Errors are printed and re-raised. -/
def assume_target_role (env : Env) (stsResult : Except ClientErr Credentials)
    (target_role_arn : String) : List Event × Except PyErr Session :=
  let ev := Event.stsAssumeRole target_role_arn "QuickSightSession"
  match stsResult with
  | .error e => ([ev], .error (.clientError e.code e.msg))
  | .ok creds =>
    ([ev], .ok ⟨creds, envGetD env "TARGET_REGION" (envGetD env "AWS_REGION" "us-east-1")⟩)

/-- `update_template_permissions(client, account_id, template_id,
target_account_id)`: grant the target account's root principal the three
template actions; `ClientError`s are printed and re-raised. -/
def update_template_permissions (clientRegion : String)
    (result : Except ClientErr Unit)
    (account_id template_id target_account_id : String) :
    List Event × Except PyErr Unit :=
  let grant : Permission :=
    ⟨s!"arn:aws:iam::{target_account_id}:root",
      ["quicksight:DescribeTemplate", "quicksight:ListTemplateVersions",
       "quicksight:UpdateTemplatePermissions"]⟩
  let ev := Event.updateTemplatePermissions clientRegion account_id template_id grant
  match result with
  | .error e => ([ev], .error (.clientError e.code e.msg))
  | .ok _ => ([ev], .ok ())

/-- `get_template_details(client, account_id, template_id)` (lines 109-121),
identical in behaviour to the same-account script's. -/
def get_template_details (clientRegion : String)
    (result : Except ClientErr DescribeTemplateResponse)
    (account_id template_id : String) :
    List Event × Except PyErr DescribeTemplateResponse :=
  let ev := Event.describeTemplate clientRegion account_id template_id
  match result with
  | .error e => ([ev], .error (.clientError e.code e.msg))
  | .ok resp => ([ev], .ok resp)

/-- Lines 129-136: one reference per configuration, each ARN built from
`os.environ.get('TARGET_REGION', 'us-east-1')` (note: no `AWS_REGION`
fallback here), the target account id and the per-call `dataset_id`. -/
def dataset_references (env : Env) (account_id dataset_id : String)
    (template_obj : DescribeTemplateResponse) : List DataSetReference :=
  match template_obj.Template.Version with
  | none => []
  | some ver =>
    match ver.DataSetConfigurations with
    | none => []
    | some configs =>
      let tregion := envGetD env "TARGET_REGION" "us-east-1"
      configs.map (fun c => DataSetReference.mk c.Placeholder
        s!"arn:aws:quicksight:{tregion}:{account_id}:dataset/{dataset_id}")

/-- `create_dashboard(client, account_id, dashboard_name, template_obj,
dataset_id)` (lines 123-182).  Unlike the same-account variant there is no
empty-references check: the `create_dashboard` service call is issued even
when the reference list is empty.  On success the dashboard URL (built with
`os.environ.get('TARGET_REGION', 'us-east-1')`) is printed.  `ClientError`s
are printed and re-raised. -/
def create_dashboard (env : Env) (now clientRegion : String)
    (result : Except ClientErr Unit) (account_id dashboard_name : String)
    (template_obj : DescribeTemplateResponse) (dataset_id : String) :
    List Event × Except PyErr Unit :=
  let dashboard_id := "dashboard-" ++ now
  let refs := dataset_references env account_id dataset_id template_obj
  let tregion := envGetD env "TARGET_REGION" "us-east-1"
  let permissions : List Permission :=
    [⟨s!"arn:aws:quicksight:{tregion}:{account_id}:namespace/default",
      ["quicksight:DescribeDashboard", "quicksight:QueryDashboard",
       "quicksight:ListDashboardVersions"]⟩]
  let call : CreateDashboardCall :=
    ⟨account_id, dashboard_id, dashboard_name, permissions,
      template_obj.Template.Arn, refs, "ENABLED", "ENABLED", "EXPANDED",
      "Initial version"⟩
  let ev := Event.createDashboard clientRegion call
  match result with
  | .error e => ([ev], .error (.clientError e.code e.msg))
  | .ok _ =>
    ([ev, Event.printDashboardUrl
        s!"https://{tregion}.quicksight.aws.amazon.com/sn/dashboards/{dashboard_id}"],
      .ok ())

/-- The variables validated at the head of each of the three blocks. -/
def requiredVars : List String :=
  ["AWS_ACCOUNT_ID", "TEMPLATE_ID", "TARGET_ACCOUNT_ID", "TARGET_DATASET_ID",
   "TARGET_ROLE_ARN"]

/-- The required variables absent from the environment. -/
def missingVars (env : Env) : List String :=
  requiredVars.filter (fun v => (envGet? env v).isNone)

/-- First top-level try block (lines 52-107): validate, grant permissions,
assume the role, then call `get_template_details` — a name not yet defined at
this point of module execution, so `NameError` is raised and caught by the
block's `except Exception`. -/
def block1 (env : Env) (w : World) : List Event × Option PyErr :=
  let missing := missingVars env
  if missing.isEmpty then
    match envGet? env "AWS_ACCOUNT_ID", envGet? env "TEMPLATE_ID",
        envGet? env "TARGET_ACCOUNT_ID", envGet? env "TARGET_ROLE_ARN" with
    | some acct, some tid, some tacct, some roleArn =>
      let sourceRegion := envGetD env "AWS_REGION" "us-east-1"
      match update_template_permissions sourceRegion w.updatePermissions acct tid tacct with
      | (evs, .error e) => (evs, some e)
      | (evs, .ok _) =>
        match assume_target_role env w.assumeRole roleArn with
        | (evs2, .error e) => (evs ++ evs2, some e)
        | (evs2, .ok _session) =>
          (evs ++ evs2, some (.nameError "get_template_details"))
    | _, _, _, _ =>
      -- unreachable when the validation above passed
      ([], some (.keyError "AWS_ACCOUNT_ID"))
  else
    ([], some (.valueError ("Missing required environment variables: " ++
      String.intercalate ", " missing)))

/-- Second top-level try block (lines 184-246): validate, grant permissions,
assume the role, fetch the template with the source client, create the
dashboard with the target session's client.  All errors are caught by the
block's handlers. -/
def block2 (env : Env) (now : String) (w : World) : List Event × Option PyErr :=
  let missing := missingVars env
  if missing.isEmpty then
    match envGet? env "AWS_ACCOUNT_ID", envGet? env "TEMPLATE_ID",
        envGet? env "TARGET_ACCOUNT_ID", envGet? env "TARGET_ROLE_ARN",
        envGet? env "TARGET_DATASET_ID" with
    | some acct, some tid, some tacct, some roleArn, some tdsid =>
      let sourceRegion := envGetD env "AWS_REGION" "us-east-1"
      match update_template_permissions sourceRegion w.updatePermissions acct tid tacct with
      | (evs, .error e) => (evs, some e)
      | (evs, .ok _) =>
        match assume_target_role env w.assumeRole roleArn with
        | (evs2, .error e) => (evs ++ evs2, some e)
        | (evs2, .ok session) =>
          match get_template_details sourceRegion w.describeTemplate acct tid with
          | (evs3, .error e) => (evs ++ evs2 ++ evs3, some e)
          | (evs3, .ok template_obj) =>
            match create_dashboard env now session.region w.createDashboard tacct
                ("Imported Dashboard " ++ now) template_obj tdsid with
            | (evs4, .error e) => (evs ++ evs2 ++ evs3 ++ evs4, some e)
            | (evs4, .ok _) => (evs ++ evs2 ++ evs3 ++ evs4, none)
    | _, _, _, _, _ =>
      -- unreachable when the validation above passed
      ([], some (.keyError "AWS_ACCOUNT_ID"))
  else
    ([], some (.valueError ("Missing required environment variables: " ++
      String.intercalate ", " missing)))

/-- Third top-level try block (lines 249-296): like the second but without
the permission-grant step. -/
def block3 (env : Env) (now : String) (w : World) : List Event × Option PyErr :=
  let missing := missingVars env
  if missing.isEmpty then
    match envGet? env "AWS_ACCOUNT_ID", envGet? env "TEMPLATE_ID",
        envGet? env "TARGET_ACCOUNT_ID", envGet? env "TARGET_ROLE_ARN",
        envGet? env "TARGET_DATASET_ID" with
    | some acct, some tid, some tacct, some roleArn, some tdsid =>
      let sourceRegion := envGetD env "AWS_REGION" "us-east-1"
      match assume_target_role env w.assumeRole roleArn with
      | (evs2, .error e) => (evs2, some e)
      | (evs2, .ok session) =>
        match get_template_details sourceRegion w.describeTemplate acct tid with
        | (evs3, .error e) => (evs2 ++ evs3, some e)
        | (evs3, .ok template_obj) =>
          match create_dashboard env now session.region w.createDashboard tacct
              ("Imported Dashboard " ++ now) template_obj tdsid with
          | (evs4, .error e) => (evs2 ++ evs3 ++ evs4, some e)
          | (evs4, .ok _) => (evs2 ++ evs3 ++ evs4, none)
    | _, _, _, _, _ =>
      -- unreachable when the validation above passed
      ([], some (.keyError "AWS_ACCOUNT_ID"))
  else
    ⟨[], some (.valueError ("Missing required environment variables: " ++
      String.intercalate ", " missing))⟩

/-- Running the module executes all three blocks in order; each block's
handlers catch every error (printing it), so nothing escapes uncaught and
the process always exits zero.  Each block's service calls are separate, so
each gets its own `World`. -/
def run (env : Env) (now : String) (w1 w2 w3 : World) : ModuleResult :=
  let r1 := block1 env w1
  let r2 := block2 env now w2
  let r3 := block3 env now w3
  ⟨r1.1 ++ r2.1 ++ r3.1, r1.2.toList ++ r2.2.toList ++ r3.2.toList, none⟩

end QScreateDiffAccountDash

/-! ### Concrete fixtures used by the claim theorems and witnesses -/

/-- A described template with the single placeholder `"sales"`. -/
def tmplSales : DescribeTemplateResponse :=
  ⟨⟨"arn:aws:quicksight:us-east-1:111111111111:template/t1", some ⟨some [⟨"sales"⟩]⟩⟩⟩

/-- A described template whose `Version.DataSetConfigurations` list is
present but empty: zero dataset configurations. -/
def tmplNoConfigs : DescribeTemplateResponse :=
  ⟨⟨"arn:aws:quicksight:us-east-1:111111111111:template/t1", some ⟨some []⟩⟩⟩

/-- Concrete temporary credentials. -/
def credsX : QScreateDiffAccountDash.Credentials :=
  ⟨"AKIDEXAMPLE", "SECRETKEY", "SESSIONTOKEN"⟩

/-- The environment of the spec's same-account example. -/
def envSame : Env :=
  [("AWS_ACCOUNT_ID", "111111111111"), ("TEMPLATE_ID", "t1"),
   ("DATASET_ID", "d1"), ("AWS_REGION", "us-east-1")]

/-- A complete environment for the cross-account script, with neither
`AWS_REGION` nor `TARGET_REGION` set. -/
def envCross : Env :=
  [("AWS_ACCOUNT_ID", "111111111111"), ("TEMPLATE_ID", "t1"),
   ("TARGET_ACCOUNT_ID", "222222222222"), ("TARGET_DATASET_ID", "d2"),
   ("TARGET_ROLE_ARN", "arn:aws:iam::222222222222:role/QuickSightRole")]

/-- A cross-account world in which every service call succeeds. -/
def crossOkWorld : QScreateDiffAccountDash.World :=
  ⟨.ok (), .ok credsX, .ok tmplSales, .ok ()⟩

/-- A saver world whose `describe_template` call succeeds. -/
def saverOkWorld : QSsaveTemplate.World := ⟨.ok ⟨PyVal.dict .nil⟩⟩

/-- A saver world whose `describe_template` call fails. -/
def saverErrWorld : QSsaveTemplate.World :=
  ⟨.error ⟨"ResourceNotFoundException", "Template t1 not found"⟩⟩

/-! ### Helper lemmas -/

theorem envGetD_of_none {e : Env} {k : String} (d : String)
    (h : envGet? e k = none) : envGetD e k d = d := by
  simp [envGetD, h]

theorem envGetD_of_some {e : Env} {k v : String} (d : String)
    (h : envGet? e k = some v) : envGetD e k d = v := by
  simp [envGetD, h]

/-- The same-account reference loop, when `DATASET_ID` is set, maps every
configuration to a reference with the constructed ARN. -/
theorem refsLoop_ok (env : Env) (account_id dsid : String)
    (h : envGet? env "DATASET_ID" = some dsid)
    (configs : List DataSetConfiguration) :
    QScreateAnewDashboard.refsLoop env account_id configs
      = .ok (configs.map (fun c =>
          let region := envGetD env "AWS_REGION" "us-east-1"
          DataSetReference.mk c.Placeholder
            s!"arn:aws:quicksight:{region}:{account_id}:dataset/{dsid}")) := by
  induction configs with
  | nil => rfl
  | cons c cs ih => simp [QScreateAnewDashboard.refsLoop, h, ih]

/-- A template with zero dataset configurations yields the empty reference
list in the same-account script. -/
theorem dataset_references_of_no_configs (env : Env) (account_id : String)
    (tmpl : DescribeTemplateResponse) (h : templateConfigs tmpl = []) :
    QScreateAnewDashboard.dataset_references env account_id tmpl = .ok [] := by
  obtain ⟨⟨arn, version⟩⟩ := tmpl
  rcases version with _ | ⟨cfgs⟩
  · rfl
  · rcases cfgs with _ | configs
    · rfl
    · simp only [templateConfigs, Option.getD_some] at h
      subst h
      rfl

/-- A template with zero dataset configurations yields the empty reference
list in the cross-account script. -/
theorem cross_dataset_references_of_no_configs (env : Env)
    (account_id dataset_id : String) (tmpl : DescribeTemplateResponse)
    (h : templateConfigs tmpl = []) :
    QScreateDiffAccountDash.dataset_references env account_id dataset_id tmpl = [] := by
  obtain ⟨⟨arn, version⟩⟩ := tmpl
  rcases version with _ | ⟨cfgs⟩
  · rfl
  · rcases cfgs with _ | configs
    · rfl
    · simp only [templateConfigs, Option.getD_some] at h
      subst h
      rfl

/-- With a required variable absent, the same-account dashboard script stops
at validation: no event, one caught ValueError, nothing uncaught. -/
theorem sameAccount_missing_var_run (env : Env) (v now : String)
    (w : QScreateAnewDashboard.World)
    (hv : v ∈ QScreateAnewDashboard.requiredVars) (hn : envGet? env v = none) :
    ∃ m, QScreateAnewDashboard.run env now w = ⟨[], [.valueError m], none⟩ := by
  have hmem : v ∈ QScreateAnewDashboard.requiredVars.filter
      (fun u => (envGet? env u).isNone) :=
    List.mem_filter.mpr ⟨hv, by simp [hn]⟩
  rcases hm : QScreateAnewDashboard.requiredVars.filter
      (fun u => (envGet? env u).isNone) with _ | ⟨x, xs⟩
  · rw [hm] at hmem; cases hmem
  · exact ⟨"Missing required environment variables: " ++ String.intercalate ", " (x :: xs),
      by simp [QScreateAnewDashboard.run, hm]⟩

/-- With a required variable absent, every one of the cross-account script's
three blocks stops at validation with the same caught ValueError. -/
theorem cross_missing_var_run (env : Env) (v now : String)
    (w1 w2 w3 : QScreateDiffAccountDash.World)
    (hv : v ∈ QScreateDiffAccountDash.requiredVars) (hn : envGet? env v = none) :
    ∃ m, QScreateDiffAccountDash.run env now w1 w2 w3
      = ⟨[], [.valueError m, .valueError m, .valueError m], none⟩ := by
  have hmem : v ∈ QScreateDiffAccountDash.missingVars env :=
    List.mem_filter.mpr ⟨hv, by simp [hn]⟩
  rcases hm : QScreateDiffAccountDash.missingVars env with _ | ⟨x, xs⟩
  · rw [hm] at hmem; cases hmem
  · exact ⟨"Missing required environment variables: " ++ String.intercalate ", " (x :: xs),
      by simp [QScreateDiffAccountDash.run, QScreateDiffAccountDash.block1,
        QScreateDiffAccountDash.block2, QScreateDiffAccountDash.block3, hm]⟩

/-- With any of its three environment variables absent, TemplateSaver raises
an uncaught KeyError before making any call. -/
theorem saver_missing_var_run (env : Env) (w : QSsaveTemplate.World)
    (h : envGet? env "AWS_ACCOUNT_ID" = none ∨ envGet? env "AWS_REGION" = none ∨
      envGet? env "TEMPLATE_ID" = none) :
    ∃ k, QSsaveTemplate.run env w = ⟨[], [], some (.keyError k)⟩ := by
  rcases h with h | h | h
  · exact ⟨"AWS_ACCOUNT_ID", by simp [QSsaveTemplate.run, h]⟩
  · rcases h1 : envGet? env "AWS_ACCOUNT_ID" with _ | a
    · exact ⟨"AWS_ACCOUNT_ID", by simp [QSsaveTemplate.run, h1]⟩
    · exact ⟨"AWS_REGION", by simp [QSsaveTemplate.run, h1, h]⟩
  · rcases h1 : envGet? env "AWS_ACCOUNT_ID" with _ | a
    · exact ⟨"AWS_ACCOUNT_ID", by simp [QSsaveTemplate.run, h1]⟩
    · rcases h2 : envGet? env "AWS_REGION" with _ | r
      · exact ⟨"AWS_REGION", by simp [QSsaveTemplate.run, h1, h2]⟩
      · exact ⟨"TEMPLATE_ID", by simp [QSsaveTemplate.run, h1, h2, h]⟩

/-- With `ANALYSIS_ID` or `AWS_ACCOUNT_ID` absent, TemplateExporter raises a
KeyError before any call; the module's catch-all swallows it. -/
theorem exporter_missing_var_run (env : Env) (current_region : String)
    (w : QStemplateExport.World)
    (h : envGet? env "ANALYSIS_ID" = none ∨ envGet? env "AWS_ACCOUNT_ID" = none) :
    ∃ k, QStemplateExport.run env current_region w = ⟨[], [.keyError k], none⟩ := by
  rcases h with h | h
  · exact ⟨"ANALYSIS_ID", by simp [QStemplateExport.run, h]⟩
  · rcases h1 : envGet? env "ANALYSIS_ID" with _ | aid
    · exact ⟨"ANALYSIS_ID", by simp [QStemplateExport.run, h1]⟩
    · exact ⟨"AWS_ACCOUNT_ID", by simp [QStemplateExport.run, h1,
        QStemplateExport.create_quicksight_template, h]⟩

/-- On a template with both keys present, the same-account reference list is
the reference loop over the configurations. -/
theorem sameAccount_dataset_references_eq (env : Env) (account_id arn : String)
    (configs : List DataSetConfiguration) :
    QScreateAnewDashboard.dataset_references env account_id ⟨⟨arn, some ⟨some configs⟩⟩⟩
      = QScreateAnewDashboard.refsLoop env account_id configs := rfl

/-- On a template with both keys present, the cross-account reference list
maps each configuration to the target-dataset ARN. -/
theorem cross_dataset_references_eq (env : Env) (account_id dataset_id arn : String)
    (configs : List DataSetConfiguration) :
    QScreateDiffAccountDash.dataset_references env account_id dataset_id
        ⟨⟨arn, some ⟨some configs⟩⟩⟩
      = configs.map (fun c =>
          let tregion := envGetD env "TARGET_REGION" "us-east-1"
          DataSetReference.mk c.Placeholder
            s!"arn:aws:quicksight:{tregion}:{account_id}:dataset/{dataset_id}") := rfl

/-! ### Claim theorems -/

/-- Claim C1 counterexample: on a template whose description contains zero
dataset configurations, the cross-account replicator's `create_dashboard`
does NOT fail with a ValueError: it attempts the create-dashboard service
call (with an empty dataset-reference list) and succeeds. -/
theorem claimC1_counterexample :
    (QScreateDiffAccountDash.create_dashboard [] "20240101000000" "us-east-1"
        (.ok ()) "222222222222" "Imported Dashboard X" tmplNoConfigs "d2").2 = .ok () ∧
    templateConfigs tmplNoConfigs = [] ∧
    ∃ call, (QScreateDiffAccountDash.create_dashboard [] "20240101000000" "us-east-1"
        (.ok ()) "222222222222" "Imported Dashboard X" tmplNoConfigs "d2").1.head?
        = some (.createDashboard "us-east-1" call) ∧ call.DataSetReferences = [] :=
  ⟨rfl, rfl, ⟨_, rfl, rfl⟩⟩

/-- Claim C1 (amended): for every template whose description contains zero
dataset configurations, the same-account DashboardCreator's dashboard
creation fails with `ValueError("No dataset references found in template")`
before any create-dashboard service call is attempted; the cross-account
replicator's dashboard-creation step, which has no such check, attempts the
create-dashboard call with an empty dataset-reference list. -/
theorem claimC1 :
    (∀ (env : Env) (now clientRegion : String) (result : Except ClientErr Unit)
        (account_id dashboard_name : String) (tmpl : DescribeTemplateResponse),
      templateConfigs tmpl = [] →
      QScreateAnewDashboard.create_dashboard env now clientRegion result account_id
          dashboard_name tmpl
        = ([], .error (.valueError "No dataset references found in template"))) ∧
    (∀ (env : Env) (now clientRegion : String) (result : Except ClientErr Unit)
        (account_id dashboard_name : String) (tmpl : DescribeTemplateResponse)
        (dataset_id : String),
      templateConfigs tmpl = [] →
      ∃ call, (QScreateDiffAccountDash.create_dashboard env now clientRegion result
          account_id dashboard_name tmpl dataset_id).1.head?
          = some (.createDashboard clientRegion call) ∧ call.DataSetReferences = []) := by
  constructor
  · intro env now clientRegion result account_id dashboard_name tmpl h
    have hrefs := dataset_references_of_no_configs env account_id tmpl h
    simp [QScreateAnewDashboard.create_dashboard, hrefs]
  · intro env now clientRegion result account_id dashboard_name tmpl dataset_id h
    have hrefs := cross_dataset_references_of_no_configs env account_id dataset_id tmpl h
    rcases result with e | u
    · simp only [QScreateDiffAccountDash.create_dashboard, hrefs]
      exact ⟨_, rfl, rfl⟩
    · simp only [QScreateDiffAccountDash.create_dashboard, hrefs]
      exact ⟨_, rfl, rfl⟩

/-- Claim C1 witness: the amended claim instantiated on a concrete template
with zero dataset configurations. -/
theorem claimC1_witness :
    QScreateAnewDashboard.create_dashboard [] "20240101000000" "us-east-1" (.ok ())
        "111111111111" "New Dashboard" tmplNoConfigs
      = ([], .error (.valueError "No dataset references found in template")) ∧
    ∃ call, (QScreateDiffAccountDash.create_dashboard [] "20240101000000" "us-east-1"
        (.error ⟨"ThrottlingException", "rate exceeded"⟩) "222222222222"
        "Imported Dashboard Y" tmplNoConfigs "d2").1.head?
        = some (.createDashboard "us-east-1" call) ∧ call.DataSetReferences = [] :=
  ⟨claimC1.1 [] "20240101000000" "us-east-1" (.ok ()) "111111111111" "New Dashboard"
      tmplNoConfigs rfl,
    claimC1.2 [] "20240101000000" "us-east-1" (.error ⟨"ThrottlingException", "rate exceeded"⟩)
      "222222222222" "Imported Dashboard Y" tmplNoConfigs "d2" rfl⟩

/-- Claim C3: for every template with N dataset-configuration placeholders,
the dataset-reference list has exactly N entries, the i-th entry carrying the
i-th configuration's placeholder (so each placeholder appears exactly as
often as it is configured), and every entry's ARN embeds the same destination
dataset id — `DATASET_ID` (with the `AWS_REGION`-defaulted region) in the
same-account script, the per-call `dataset_id` argument (with the
`TARGET_REGION`-defaulted region) in the cross-account script; moreover the
list is exactly what the create-dashboard call receives, and on the spec's
concrete example the list is
`[⟨"sales", "arn:aws:quicksight:us-east-1:111111111111:dataset/d1"⟩]`. -/
theorem claimC3 :
    (∀ (env : Env) (account_id dsid : String) (tmpl : DescribeTemplateResponse)
        (ver : TemplateVersion) (configs : List DataSetConfiguration),
      tmpl.Template.Version = some ver →
      ver.DataSetConfigurations = some configs →
      envGet? env "DATASET_ID" = some dsid →
      ∃ refs, QScreateAnewDashboard.dataset_references env account_id tmpl = .ok refs ∧
        refs.length = configs.length ∧
        refs.map DataSetReference.DataSetPlaceholder
          = configs.map DataSetConfiguration.Placeholder ∧
        (∀ p, (refs.map DataSetReference.DataSetPlaceholder).count p
          = (configs.map DataSetConfiguration.Placeholder).count p) ∧
        ∀ r ∈ refs,
          let region := envGetD env "AWS_REGION" "us-east-1"
          r.DataSetArn = s!"arn:aws:quicksight:{region}:{account_id}:dataset/{dsid}") ∧
    (∀ (env : Env) (account_id dataset_id : String) (tmpl : DescribeTemplateResponse)
        (ver : TemplateVersion) (configs : List DataSetConfiguration),
      tmpl.Template.Version = some ver →
      ver.DataSetConfigurations = some configs →
      (QScreateDiffAccountDash.dataset_references env account_id dataset_id tmpl).length
          = configs.length ∧
      (QScreateDiffAccountDash.dataset_references env account_id dataset_id tmpl).map
          DataSetReference.DataSetPlaceholder
        = configs.map DataSetConfiguration.Placeholder ∧
      ∀ r ∈ QScreateDiffAccountDash.dataset_references env account_id dataset_id tmpl,
        let tregion := envGetD env "TARGET_REGION" "us-east-1"
        r.DataSetArn = s!"arn:aws:quicksight:{tregion}:{account_id}:dataset/{dataset_id}") ∧
    (∀ (env : Env) (now clientRegion : String) (result : Except ClientErr Unit)
        (account_id dashboard_name : String) (tmpl : DescribeTemplateResponse)
        (refs : List DataSetReference),
      QScreateAnewDashboard.dataset_references env account_id tmpl = .ok refs →
      refs ≠ [] →
      ∃ call, (QScreateAnewDashboard.create_dashboard env now clientRegion result
          account_id dashboard_name tmpl).1.head?
          = some (.createDashboard clientRegion call) ∧ call.DataSetReferences = refs) ∧
    (∀ (env : Env) (now clientRegion : String) (result : Except ClientErr Unit)
        (account_id dashboard_name : String) (tmpl : DescribeTemplateResponse)
        (dataset_id : String),
      ∃ call, (QScreateDiffAccountDash.create_dashboard env now clientRegion result
          account_id dashboard_name tmpl dataset_id).1.head?
          = some (.createDashboard clientRegion call) ∧
        call.DataSetReferences
          = QScreateDiffAccountDash.dataset_references env account_id dataset_id tmpl) ∧
    QScreateAnewDashboard.dataset_references envSame "111111111111" tmplSales
      = .ok [⟨"sales", "arn:aws:quicksight:us-east-1:111111111111:dataset/d1"⟩] := by
  refine ⟨?_, ?_, ?_, ?_, rfl⟩
  · intro env account_id dsid tmpl ver configs hv hc hd
    obtain ⟨⟨arn, version⟩⟩ := tmpl
    dsimp only at hv
    subst hv
    obtain ⟨cfgs⟩ := ver
    dsimp only at hc
    subst hc
    rw [sameAccount_dataset_references_eq]
    have hdr := refsLoop_ok env account_id dsid hd configs
    rw [hdr]
    have hmap : (configs.map (fun c =>
        let region := envGetD env "AWS_REGION" "us-east-1"
        DataSetReference.mk c.Placeholder
          s!"arn:aws:quicksight:{region}:{account_id}:dataset/{dsid}")).map
          DataSetReference.DataSetPlaceholder
        = configs.map DataSetConfiguration.Placeholder := by
      rw [List.map_map]; exact rfl
    refine ⟨_, rfl, by simp, hmap, fun p => by rw [hmap], ?_⟩
    rintro r hr
    rcases List.mem_map.mp hr with ⟨c, hcmem, rfl⟩
    rfl
  · intro env account_id dataset_id tmpl ver configs hv hc
    obtain ⟨⟨arn, version⟩⟩ := tmpl
    dsimp only at hv
    subst hv
    obtain ⟨cfgs⟩ := ver
    dsimp only at hc
    subst hc
    rw [cross_dataset_references_eq]
    refine ⟨by simp, by rw [List.map_map]; exact rfl, ?_⟩
    rintro r hr
    rcases List.mem_map.mp hr with ⟨c, hcmem, rfl⟩
    rfl
  · intro env now clientRegion result account_id dashboard_name tmpl refs hrefs hne
    rcases refs with _ | ⟨r0, rs⟩
    · exact absurd rfl hne
    · rcases result with e | u
      · unfold QScreateAnewDashboard.create_dashboard
        rw [hrefs]
        exact ⟨_, rfl, rfl⟩
      · unfold QScreateAnewDashboard.create_dashboard
        rw [hrefs]
        exact ⟨_, rfl, rfl⟩
  · intro env now clientRegion result account_id dashboard_name tmpl dataset_id
    rcases result with e | u <;> exact ⟨_, rfl, rfl⟩

/-- Claim C3 witness: the general parts instantiated on the spec's concrete
example (template with one placeholder `"sales"`). -/
theorem claimC3_witness :
    (∃ refs, QScreateAnewDashboard.dataset_references envSame "111111111111" tmplSales
        = .ok refs ∧
      refs.length = [DataSetConfiguration.mk "sales"].length ∧
      refs.map DataSetReference.DataSetPlaceholder
        = [DataSetConfiguration.mk "sales"].map DataSetConfiguration.Placeholder ∧
      (∀ p, (refs.map DataSetReference.DataSetPlaceholder).count p
        = ([DataSetConfiguration.mk "sales"].map DataSetConfiguration.Placeholder).count p) ∧
      ∀ r ∈ refs,
        let region := envGetD envSame "AWS_REGION" "us-east-1"
        r.DataSetArn = s!"arn:aws:quicksight:{region}:111111111111:dataset/d1") ∧
    (∃ call, (QScreateDiffAccountDash.create_dashboard envCross "20240101000000"
        "us-east-1" (.ok ()) "222222222222" "Imported Dashboard Z" tmplSales "d2").1.head?
        = some (.createDashboard "us-east-1" call) ∧
      call.DataSetReferences
        = QScreateDiffAccountDash.dataset_references envCross "222222222222" "d2" tmplSales) :=
  ⟨claimC3.1 envSame "111111111111" "d1" tmplSales ⟨some [⟨"sales"⟩]⟩ [⟨"sales"⟩] rfl rfl rfl,
    claimC3.2.2.2.1 envCross "20240101000000" "us-east-1" (.ok ()) "222222222222"
      "Imported Dashboard Z" tmplSales "d2"⟩

/-- Claim C2 (code bug): a single run of the cross-account replicator does
not perform each of the four steps exactly once.  The module executes three
sequential top-level try blocks: the first grants permissions and assumes
the role, then dies with a NameError (it calls `get_template_details` before
that function's definition has executed); the second performs all four
steps; the third repeats role assumption, template fetch and dashboard
creation without the grant.  On a complete environment with all service
calls succeeding, one run grants permissions twice, assumes the role three
times, fetches the template twice and creates two dashboards. -/
theorem claimC2_theorem :
    ((QScreateDiffAccountDash.run envCross "20240101000000" crossOkWorld crossOkWorld
        crossOkWorld).events.countP (fun e => match e with
          | .updateTemplatePermissions _ _ _ _ => true | _ => false)) = 2 ∧
    ((QScreateDiffAccountDash.run envCross "20240101000000" crossOkWorld crossOkWorld
        crossOkWorld).events.countP (fun e => match e with
          | .stsAssumeRole _ _ => true | _ => false)) = 3 ∧
    ((QScreateDiffAccountDash.run envCross "20240101000000" crossOkWorld crossOkWorld
        crossOkWorld).events.countP (fun e => match e with
          | .describeTemplate _ _ _ => true | _ => false)) = 2 ∧
    ((QScreateDiffAccountDash.run envCross "20240101000000" crossOkWorld crossOkWorld
        crossOkWorld).events.countP (fun e => match e with
          | .createDashboard _ _ => true | _ => false)) = 2 ∧
    (QScreateDiffAccountDash.run envCross "20240101000000" crossOkWorld crossOkWorld
        crossOkWorld).caught = [.nameError "get_template_details"] := by
  exact ⟨rfl, rfl, rfl, rfl, rfl⟩

/-- Claim C4: TemplateSaver issues `describe_template` with the literal
version number 1 and writes to `template.json` (a plain `'w'`-mode write,
overwriting unconditionally) exactly the serialization of the response's
`Template` sub-object under `json.dumps(·, indent=4, sort_keys=True,
default=str)`; the concrete conjunct shows the serialization's 4-space
indentation, sorted keys, and string conversion of a datetime value. -/
theorem claimC4 :
    (∀ (env : Env) (acct region tid : String) (w : QSsaveTemplate.World)
        (resp : QSsaveTemplate.SaverResponse),
      envGet? env "AWS_ACCOUNT_ID" = some acct →
      envGet? env "AWS_REGION" = some region →
      envGet? env "TEMPLATE_ID" = some tid →
      w.describeTemplate = .ok resp →
      QSsaveTemplate.run env w =
        ⟨[.describeTemplateVersion region acct tid 1,
          .fileWrite "template.json" (pyDumps resp.Template)], [], none⟩) ∧
    pyDumps (PyVal.dict (.cons "b" (.int 1) (.cons "a" (.datetime "2024-01-01 00:00:00") .nil)))
      = "\x7b\n    \"a\": \"2024-01-01 00:00:00\",\n    \"b\": 1\n\x7d" := by
  constructor
  · intro env acct region tid w resp h1 h2 h3 h4
    simp [QSsaveTemplate.run, h1, h2, h3, QSsaveTemplate.download_template, h4]
  · decide

/-- Claim C4 witness: the run characterization instantiated on a concrete
environment and successful response. -/
theorem claimC4_witness :
    QSsaveTemplate.run envSame saverOkWorld =
      ⟨[.describeTemplateVersion "us-east-1" "111111111111" "t1" 1,
        .fileWrite "template.json" (pyDumps (PyVal.dict .nil))], [], none⟩ :=
  claimC4.1 envSame "111111111111" "us-east-1" "t1" saverOkWorld ⟨PyVal.dict .nil⟩
    rfl rfl rfl rfl

/-- Claim C9: when the `describe_template` call fails, TemplateSaver's run
consists of that single attempted call; the output file is never opened or
written (no file-write event occurs), so its prior content is unchanged. -/
theorem claimC9 :
    ∀ (env : Env) (acct region tid : String) (w : QSsaveTemplate.World) (e : ClientErr),
      envGet? env "AWS_ACCOUNT_ID" = some acct →
      envGet? env "AWS_REGION" = some region →
      envGet? env "TEMPLATE_ID" = some tid →
      w.describeTemplate = .error e →
      QSsaveTemplate.run env w =
        ⟨[.describeTemplateVersion region acct tid 1], [],
          some (.clientError e.code e.msg)⟩ ∧
      ∀ p c, Event.fileWrite p c ∉ (QSsaveTemplate.run env w).events := by
  intro env acct region tid w e h1 h2 h3 h4
  have hrun : QSsaveTemplate.run env w =
      ⟨[.describeTemplateVersion region acct tid 1], [],
        some (.clientError e.code e.msg)⟩ := by
    simp [QSsaveTemplate.run, h1, h2, h3, QSsaveTemplate.download_template, h4]
  refine ⟨hrun, ?_⟩
  intro p c hmem
  rw [hrun] at hmem
  simp at hmem

/-- Claim C9 witness: the error-path characterization instantiated on a
concrete environment and failing response. -/
theorem claimC9_witness :
    QSsaveTemplate.run envSame saverErrWorld =
      ⟨[.describeTemplateVersion "us-east-1" "111111111111" "t1" 1], [],
        some (.clientError "ResourceNotFoundException" "Template t1 not found")⟩ ∧
    ∀ p c, Event.fileWrite p c ∉ (QSsaveTemplate.run envSame saverErrWorld).events :=
  claimC9 envSame "111111111111" "us-east-1" "t1" saverErrWorld
    ⟨"ResourceNotFoundException", "Template t1 not found"⟩ rfl rfl rfl rfl

/-- Claim C10: TemplateExporter's create-template call uses the analysis id
itself as both the `TemplateId` and the `Name`, so the created template's
identifier always equals the input analysis id (and two exports of the same
analysis target the same template id). -/
theorem claimC10 :
    ∀ (env : Env) (acct current_region : String) (w : QStemplateExport.World)
      (analysis_id : String) (resp : QStemplateExport.DescribeAnalysisResponse),
      envGet? env "AWS_ACCOUNT_ID" = some acct →
      w.describeAnalysis = .ok resp →
      ∃ call : CreateTemplateCall,
        ((QStemplateExport.create_quicksight_template env current_region w
            analysis_id).1)[1]?
          = some (.createTemplate current_region call) ∧
        call.TemplateId = analysis_id ∧ call.Name = analysis_id := by
  intro env acct current_region w analysis_id resp h1 h2
  unfold QStemplateExport.create_quicksight_template
  rw [h1, h2]
  cases hct : w.createTemplate with
  | error e => exact ⟨_, rfl, rfl, rfl⟩
  | ok u =>
    cases hdt : w.describeTemplate with
    | error e => exact ⟨_, rfl, rfl, rfl⟩
    | ok r => exact ⟨_, rfl, rfl, rfl⟩

/-- Claim C10 witness: instantiated on a concrete analysis with one dataset
ARN. -/
theorem claimC10_witness :
    ∃ call : CreateTemplateCall,
      ((QStemplateExport.create_quicksight_template
          [("AWS_ACCOUNT_ID", "111111111111"), ("ANALYSIS_ID", "a1")] "us-east-1"
          ⟨.ok ⟨⟨["arn:aws:quicksight:us-east-1:111111111111:dataset/sales"]⟩⟩,
            .ok (), .ok tmplSales⟩ "a1").1)[1]?
        = some (.createTemplate "us-east-1" call) ∧
      call.TemplateId = "a1" ∧ call.Name = "a1" :=
  claimC10 [("AWS_ACCOUNT_ID", "111111111111"), ("ANALYSIS_ID", "a1")] "111111111111"
    "us-east-1"
    ⟨.ok ⟨⟨["arn:aws:quicksight:us-east-1:111111111111:dataset/sales"]⟩⟩, .ok (),
      .ok tmplSales⟩
    "a1" ⟨⟨["arn:aws:quicksight:us-east-1:111111111111:dataset/sales"]⟩⟩ rfl rfl

/-- Claim C5: in every one of the four scripts, a missing required
environment variable terminates the workflow — by the validation ValueError
in the two dashboard scripts, by an uncaught KeyError in TemplateSaver, and
by a KeyError (swallowed at top level) in TemplateExporter — before any
remote service call is made (the run's event list is empty). -/
theorem claimC5 :
    (∀ (env : Env) (v now : String) (w : QScreateAnewDashboard.World),
      v ∈ QScreateAnewDashboard.requiredVars → envGet? env v = none →
      ∃ m, QScreateAnewDashboard.run env now w = ⟨[], [.valueError m], none⟩) ∧
    (∀ (env : Env) (v now : String) (w1 w2 w3 : QScreateDiffAccountDash.World),
      v ∈ QScreateDiffAccountDash.requiredVars → envGet? env v = none →
      ∃ m, QScreateDiffAccountDash.run env now w1 w2 w3
        = ⟨[], [.valueError m, .valueError m, .valueError m], none⟩) ∧
    (∀ (env : Env) (w : QSsaveTemplate.World),
      envGet? env "AWS_ACCOUNT_ID" = none ∨ envGet? env "AWS_REGION" = none ∨
        envGet? env "TEMPLATE_ID" = none →
      ∃ k, QSsaveTemplate.run env w = ⟨[], [], some (.keyError k)⟩) ∧
    (∀ (env : Env) (current_region : String) (w : QStemplateExport.World),
      envGet? env "ANALYSIS_ID" = none ∨ envGet? env "AWS_ACCOUNT_ID" = none →
      ∃ k, QStemplateExport.run env current_region w = ⟨[], [.keyError k], none⟩) :=
  ⟨sameAccount_missing_var_run, cross_missing_var_run, saver_missing_var_run,
    exporter_missing_var_run⟩

/-- Claim C5 witness: each script run on the empty environment makes no
service call. -/
theorem claimC5_witness :
    (∃ m, QScreateAnewDashboard.run [] "20240101000000"
        ⟨.ok (), .ok tmplSales, .ok ()⟩ = ⟨[], [.valueError m], none⟩) ∧
    (∃ m, QScreateDiffAccountDash.run [] "20240101000000" crossOkWorld crossOkWorld
        crossOkWorld = ⟨[], [.valueError m, .valueError m, .valueError m], none⟩) ∧
    (∃ k, QSsaveTemplate.run [] saverOkWorld = ⟨[], [], some (.keyError k)⟩) ∧
    (∃ k, QStemplateExport.run [] "us-east-1"
        ⟨.ok ⟨⟨[]⟩⟩, .ok (), .ok tmplSales⟩ = ⟨[], [.keyError k], none⟩) :=
  ⟨claimC5.1 [] "AWS_ACCOUNT_ID" "20240101000000" ⟨.ok (), .ok tmplSales, .ok ()⟩
      (by decide) rfl,
    claimC5.2.1 [] "AWS_ACCOUNT_ID" "20240101000000" crossOkWorld crossOkWorld
      crossOkWorld (by decide) rfl,
    claimC5.2.2.1 [] saverOkWorld (Or.inl rfl),
    claimC5.2.2.2 [] "us-east-1" ⟨.ok ⟨⟨[]⟩⟩, .ok (), .ok tmplSales⟩ (Or.inl rfl)⟩

/-- Claim C6 counterexample: TemplateSaver has no top-level handler, so on an
empty environment the missing-variable KeyError escapes uncaught and the
process exits with a non-zero status, falsifying "in every script ... the
process exits with status zero". -/
theorem claimC6_counterexample :
    QSsaveTemplate.run [] saverOkWorld = ⟨[], [], some (.keyError "AWS_ACCOUNT_ID")⟩ ∧
    (QSsaveTemplate.run [] saverOkWorld).uncaught ≠ none := by
  exact ⟨rfl, by decide⟩

/-- Claim C6 (amended): in the two dashboard scripts and in TemplateExporter
a missing required environment variable is caught at the top level, reported
by printing, and swallowed, so the process exits with status zero; in
TemplateSaver, which has no handler, the KeyError propagates uncaught and
the process exits with a non-zero status. -/
theorem claimC6 :
    (∀ (env : Env) (v now : String) (w : QScreateAnewDashboard.World),
      v ∈ QScreateAnewDashboard.requiredVars → envGet? env v = none →
      (QScreateAnewDashboard.run env now w).uncaught = none ∧
      ∃ m, (QScreateAnewDashboard.run env now w).caught = [.valueError m]) ∧
    (∀ (env : Env) (v now : String) (w1 w2 w3 : QScreateDiffAccountDash.World),
      v ∈ QScreateDiffAccountDash.requiredVars → envGet? env v = none →
      (QScreateDiffAccountDash.run env now w1 w2 w3).uncaught = none ∧
      ∃ m, (QScreateDiffAccountDash.run env now w1 w2 w3).caught
        = [.valueError m, .valueError m, .valueError m]) ∧
    (∀ (env : Env) (current_region : String) (w : QStemplateExport.World),
      envGet? env "ANALYSIS_ID" = none ∨ envGet? env "AWS_ACCOUNT_ID" = none →
      (QStemplateExport.run env current_region w).uncaught = none ∧
      ∃ k, (QStemplateExport.run env current_region w).caught = [.keyError k]) ∧
    (∀ (env : Env) (w : QSsaveTemplate.World),
      envGet? env "AWS_ACCOUNT_ID" = none ∨ envGet? env "AWS_REGION" = none ∨
        envGet? env "TEMPLATE_ID" = none →
      ∃ k, (QSsaveTemplate.run env w).uncaught = some (.keyError k)) := by
  refine ⟨?_, ?_, ?_, ?_⟩
  · intro env v now w hv hn
    rcases sameAccount_missing_var_run env v now w hv hn with ⟨m, hm⟩
    rw [hm]
    exact ⟨rfl, m, rfl⟩
  · intro env v now w1 w2 w3 hv hn
    rcases cross_missing_var_run env v now w1 w2 w3 hv hn with ⟨m, hm⟩
    rw [hm]
    exact ⟨rfl, m, rfl⟩
  · intro env current_region w h
    rcases exporter_missing_var_run env current_region w h with ⟨k, hk⟩
    rw [hk]
    exact ⟨rfl, k, rfl⟩
  · intro env w h
    rcases saver_missing_var_run env w h with ⟨k, hk⟩
    rw [hk]
    exact ⟨k, rfl⟩

/-- Claim C6 witness: the amended claim instantiated on the empty
environment for all four scripts. -/
theorem claimC6_witness :
    ((QScreateAnewDashboard.run [] "20240101000000"
        ⟨.ok (), .ok tmplSales, .ok ()⟩).uncaught = none ∧
      ∃ m, (QScreateAnewDashboard.run [] "20240101000000"
        ⟨.ok (), .ok tmplSales, .ok ()⟩).caught = [.valueError m]) ∧
    ((QScreateDiffAccountDash.run [] "20240101000000" crossOkWorld crossOkWorld
        crossOkWorld).uncaught = none ∧
      ∃ m, (QScreateDiffAccountDash.run [] "20240101000000" crossOkWorld crossOkWorld
        crossOkWorld).caught = [.valueError m, .valueError m, .valueError m]) ∧
    ((QStemplateExport.run [] "us-east-1" ⟨.ok ⟨⟨[]⟩⟩, .ok (), .ok tmplSales⟩).uncaught
        = none ∧
      ∃ k, (QStemplateExport.run [] "us-east-1"
        ⟨.ok ⟨⟨[]⟩⟩, .ok (), .ok tmplSales⟩).caught = [.keyError k]) ∧
    (∃ k, (QSsaveTemplate.run [] saverOkWorld).uncaught = some (.keyError k)) :=
  ⟨claimC6.1 [] "AWS_ACCOUNT_ID" "20240101000000" ⟨.ok (), .ok tmplSales, .ok ()⟩
      (by decide) rfl,
    claimC6.2.1 [] "AWS_ACCOUNT_ID" "20240101000000" crossOkWorld crossOkWorld
      crossOkWorld (by decide) rfl,
    claimC6.2.2.1 [] "us-east-1" ⟨.ok ⟨⟨[]⟩⟩, .ok (), .ok tmplSales⟩ (Or.inl rfl),
    claimC6.2.2.2 [] saverOkWorld (Or.inl rfl)⟩

/-- Claim C7 counterexample: TemplateSaver reads `os.environ['AWS_REGION']`
by subscript; with the other variables set but `AWS_REGION` unset the script
raises an uncaught KeyError and makes no call at all — the region does not
default to `us-east-1`, falsifying "in every script the AWS_REGION
environment variable is optional". -/
theorem claimC7_counterexample :
    QSsaveTemplate.run [("AWS_ACCOUNT_ID", "111111111111"), ("TEMPLATE_ID", "t1")]
        saverOkWorld
      = ⟨[], [], some (.keyError "AWS_REGION")⟩ := rfl

/-- Claim C7 (amended): `AWS_REGION` is optional with default `us-east-1` in
the same-account dashboard script and in the cross-account script (whose
first attempted call runs against the defaulted source region); TemplateSaver
instead requires `AWS_REGION` and raises an uncaught KeyError when it is
unset; TemplateExporter takes its region from the SDK session's resolution,
not from an `AWS_REGION` lookup with a default. -/
theorem claimC7 :
    (∀ (env : Env) (now acct tid dsid : String) (w : QScreateAnewDashboard.World),
      envGet? env "AWS_ACCOUNT_ID" = some acct →
      envGet? env "TEMPLATE_ID" = some tid →
      envGet? env "DATASET_ID" = some dsid →
      envGet? env "AWS_REGION" = none →
      (QScreateAnewDashboard.run env now w).events.head?
        = some (.listGroups "us-east-1" acct "default")) ∧
    (∀ (env : Env) (now acct tid tacct tdsid role : String)
        (w1 w2 w3 : QScreateDiffAccountDash.World),
      envGet? env "AWS_ACCOUNT_ID" = some acct →
      envGet? env "TEMPLATE_ID" = some tid →
      envGet? env "TARGET_ACCOUNT_ID" = some tacct →
      envGet? env "TARGET_DATASET_ID" = some tdsid →
      envGet? env "TARGET_ROLE_ARN" = some role →
      envGet? env "AWS_REGION" = none →
      (QScreateDiffAccountDash.run env now w1 w2 w3).events.head?
        = some (.updateTemplatePermissions "us-east-1" acct tid
            ⟨s!"arn:aws:iam::{tacct}:root",
              ["quicksight:DescribeTemplate", "quicksight:ListTemplateVersions",
               "quicksight:UpdateTemplatePermissions"]⟩)) ∧
    (∀ (env : Env) (current_region analysis_id acct : String)
        (w : QStemplateExport.World),
      envGet? env "AWS_ACCOUNT_ID" = some acct →
      ((QStemplateExport.create_quicksight_template env current_region w
          analysis_id).1).head?
        = some (.describeAnalysis current_region acct analysis_id)) ∧
    (∀ (env : Env) (acct : String) (w : QSsaveTemplate.World),
      envGet? env "AWS_ACCOUNT_ID" = some acct →
      envGet? env "AWS_REGION" = none →
      QSsaveTemplate.run env w = ⟨[], [], some (.keyError "AWS_REGION")⟩) := by
  refine ⟨?_, ?_, ?_, ?_⟩
  · intro env now acct tid dsid w h1 h2 h3 h4
    have hmiss : QScreateAnewDashboard.requiredVars.filter
        (fun u => (envGet? env u).isNone) = [] := by
      simp [QScreateAnewDashboard.requiredVars, List.filter, h1, h2, h3]
    have hreg := envGetD_of_none (e := env) (k := "AWS_REGION") "us-east-1" h4
    rcases hdt : w.describeTemplate with e | resp
    · simp [QScreateAnewDashboard.run, hmiss, h1, h2, hreg,
        QScreateAnewDashboard.list_quicksight_groups,
        QScreateAnewDashboard.get_template_details, hdt]
    · rcases hcd : QScreateAnewDashboard.create_dashboard env now "us-east-1"
          w.createDashboard acct "New Dashboard" resp with ⟨evs2, r2⟩
      rcases r2 with e2 | u2
      · simp [QScreateAnewDashboard.run, hmiss, h1, h2, hreg,
          QScreateAnewDashboard.list_quicksight_groups,
          QScreateAnewDashboard.get_template_details, hdt, hcd]
      · simp [QScreateAnewDashboard.run, hmiss, h1, h2, hreg,
          QScreateAnewDashboard.list_quicksight_groups,
          QScreateAnewDashboard.get_template_details, hdt, hcd]
  · intro env now acct tid tacct tdsid role w1 w2 w3 h1 h2 h3 h4 h5 h6
    have hmiss : QScreateDiffAccountDash.missingVars env = [] := by
      simp [QScreateDiffAccountDash.missingVars, QScreateDiffAccountDash.requiredVars,
        List.filter, h1, h2, h3, h4, h5]
    have hreg := envGetD_of_none (e := env) (k := "AWS_REGION") "us-east-1" h6
    rcases hup : w1.updatePermissions with e | u
    · simp [QScreateDiffAccountDash.run, QScreateDiffAccountDash.block1, hmiss,
        h1, h2, h3, h5, hreg, QScreateDiffAccountDash.update_template_permissions, hup]
    · rcases has : w1.assumeRole with e | creds
      · simp [QScreateDiffAccountDash.run, QScreateDiffAccountDash.block1, hmiss,
          h1, h2, h3, h5, hreg, QScreateDiffAccountDash.update_template_permissions,
          hup, QScreateDiffAccountDash.assume_target_role, has]
      · simp [QScreateDiffAccountDash.run, QScreateDiffAccountDash.block1, hmiss,
          h1, h2, h3, h5, hreg, QScreateDiffAccountDash.update_template_permissions,
          hup, QScreateDiffAccountDash.assume_target_role, has]
  · intro env current_region analysis_id acct w h1
    unfold QStemplateExport.create_quicksight_template
    rw [h1]
    cases w.describeAnalysis with
    | error e => rfl
    | ok resp =>
      cases w.createTemplate with
      | error e => rfl
      | ok u =>
        cases w.describeTemplate with
        | error e => rfl
        | ok r => rfl
  · intro env acct w h1 h2
    simp [QSsaveTemplate.run, h1, h2]

/-- Claim C7 witness: the amended claim instantiated on concrete
environments without `AWS_REGION`. -/
theorem claimC7_witness :
    (QScreateAnewDashboard.run
        [("AWS_ACCOUNT_ID", "111111111111"), ("TEMPLATE_ID", "t1"), ("DATASET_ID", "d1")]
        "20240101000000" ⟨.ok (), .ok tmplSales, .ok ()⟩).events.head?
      = some (.listGroups "us-east-1" "111111111111" "default") ∧
    (QScreateDiffAccountDash.run envCross "20240101000000" crossOkWorld crossOkWorld
        crossOkWorld).events.head?
      = some (.updateTemplatePermissions "us-east-1" "111111111111" "t1"
          ⟨"arn:aws:iam::222222222222:root",
            ["quicksight:DescribeTemplate", "quicksight:ListTemplateVersions",
             "quicksight:UpdateTemplatePermissions"]⟩) ∧
    ((QStemplateExport.create_quicksight_template
        [("AWS_ACCOUNT_ID", "111111111111")] "eu-central-1"
        ⟨.ok ⟨⟨[]⟩⟩, .ok (), .ok tmplSales⟩ "a1").1).head?
      = some (.describeAnalysis "eu-central-1" "111111111111" "a1") ∧
    QSsaveTemplate.run [("AWS_ACCOUNT_ID", "111111111111"), ("TEMPLATE_ID", "t1")]
        saverOkWorld
      = ⟨[], [], some (.keyError "AWS_REGION")⟩ :=
  ⟨claimC7.1 [("AWS_ACCOUNT_ID", "111111111111"), ("TEMPLATE_ID", "t1"),
      ("DATASET_ID", "d1")] "20240101000000" "111111111111" "t1" "d1"
      ⟨.ok (), .ok tmplSales, .ok ()⟩ rfl rfl rfl rfl,
    claimC7.2.1 envCross "20240101000000" "111111111111" "t1" "222222222222" "d2"
      "arn:aws:iam::222222222222:role/QuickSightRole" crossOkWorld crossOkWorld
      crossOkWorld rfl rfl rfl rfl rfl rfl,
    claimC7.2.2.1 [("AWS_ACCOUNT_ID", "111111111111")] "eu-central-1" "a1"
      "111111111111" ⟨.ok ⟨⟨[]⟩⟩, .ok (), .ok tmplSales⟩ rfl,
    claimC7.2.2.2 [("AWS_ACCOUNT_ID", "111111111111"), ("TEMPLATE_ID", "t1")]
      "111111111111" saverOkWorld rfl rfl⟩

/-- Claim C8: in the cross-account script, when `TARGET_REGION` is unset the
assumed-role session's region falls back to `AWS_REGION` (then `us-east-1`),
while every constructed dataset ARN, the permission principal ARN and the
printed dashboard URL use the literal `us-east-1` with no `AWS_REGION`
fallback — so with `AWS_REGION=eu-west-1` and `TARGET_REGION` unset the
session region (`eu-west-1`) and the ARN/URL region (`us-east-1`)
disagree. -/
theorem claimC8 :
    (∀ (env : Env) (creds : QScreateDiffAccountDash.Credentials) (roleArn : String),
      envGet? env "TARGET_REGION" = none →
      (QScreateDiffAccountDash.assume_target_role env (.ok creds) roleArn).2
        = .ok ⟨creds, envGetD env "AWS_REGION" "us-east-1"⟩) ∧
    (∀ (env : Env) (account_id dataset_id : String) (tmpl : DescribeTemplateResponse),
      envGet? env "TARGET_REGION" = none →
      ∀ r ∈ QScreateDiffAccountDash.dataset_references env account_id dataset_id tmpl,
        r.DataSetArn = s!"arn:aws:quicksight:us-east-1:{account_id}:dataset/{dataset_id}") ∧
    (∀ (env : Env) (now clientRegion account_id dashboard_name : String)
        (tmpl : DescribeTemplateResponse) (dataset_id : String),
      envGet? env "TARGET_REGION" = none →
      ∃ call,
        (QScreateDiffAccountDash.create_dashboard env now clientRegion (.ok ())
            account_id dashboard_name tmpl dataset_id).1
          = [.createDashboard clientRegion call,
             .printDashboardUrl
               s!"https://us-east-1.quicksight.aws.amazon.com/sn/dashboards/dashboard-{now}"] ∧
        call.Permissions
          = [⟨s!"arn:aws:quicksight:us-east-1:{account_id}:namespace/default",
              ["quicksight:DescribeDashboard", "quicksight:QueryDashboard",
               "quicksight:ListDashboardVersions"]⟩]) ∧
    ((QScreateDiffAccountDash.assume_target_role [("AWS_REGION", "eu-west-1")]
        (.ok credsX) "arn:aws:iam::222222222222:role/QuickSightRole").2
      = .ok ⟨credsX, "eu-west-1"⟩ ∧ "eu-west-1" ≠ "us-east-1") := by
  refine ⟨?_, ?_, ?_, rfl, by decide⟩
  · intro env creds roleArn h
    simp [QScreateDiffAccountDash.assume_target_role, envGetD, h]
  · intro env account_id dataset_id tmpl h
    obtain ⟨⟨arn, version⟩⟩ := tmpl
    rcases version with _ | ⟨cfgs⟩
    · intro r hr; cases hr
    · rcases cfgs with _ | configs
      · intro r hr; cases hr
      · rw [cross_dataset_references_eq]
        intro r hr
        rcases List.mem_map.mp hr with ⟨c, hcmem, rfl⟩
        simp only [envGetD_of_none _ h]
        rfl
  · intro env now clientRegion account_id dashboard_name tmpl dataset_id h
    have hreg := envGetD_of_none (e := env) (k := "TARGET_REGION") "us-east-1" h
    simp only [QScreateDiffAccountDash.create_dashboard, hreg]
    exact ⟨_, rfl, rfl⟩

/-- Claim C8 witness: the general parts instantiated on a concrete
environment without `TARGET_REGION`. -/
theorem claimC8_witness :
    (QScreateDiffAccountDash.assume_target_role envCross (.ok credsX)
        "arn:aws:iam::222222222222:role/QuickSightRole").2
      = .ok ⟨credsX, envGetD envCross "AWS_REGION" "us-east-1"⟩ ∧
    (∀ r ∈ QScreateDiffAccountDash.dataset_references envCross "222222222222" "d2"
        tmplSales,
      r.DataSetArn = "arn:aws:quicksight:us-east-1:222222222222:dataset/d2") ∧
    (∃ call,
      (QScreateDiffAccountDash.create_dashboard envCross "20240101000000" "us-east-1"
          (.ok ()) "222222222222" "Imported Dashboard W" tmplSales "d2").1
        = [.createDashboard "us-east-1" call,
           .printDashboardUrl
             "https://us-east-1.quicksight.aws.amazon.com/sn/dashboards/dashboard-20240101000000"] ∧
      call.Permissions
        = [⟨"arn:aws:quicksight:us-east-1:222222222222:namespace/default",
            ["quicksight:DescribeDashboard", "quicksight:QueryDashboard",
             "quicksight:ListDashboardVersions"]⟩]) :=
  ⟨claimC8.1 envCross credsX "arn:aws:iam::222222222222:role/QuickSightRole" rfl,
    claimC8.2.1 envCross "222222222222" "d2" tmplSales rfl,
    claimC8.2.2.1 envCross "20240101000000" "us-east-1" "222222222222"
      "Imported Dashboard W" tmplSales "d2" rfl⟩
